/-
  Verification of the trace-context propagation and streaming-metrics
  subsystem of the ai-chat-instrumentation backend.

  The definitions below are a shallow embedding of the Python source:
  - `backend/app/ai_service.py`   (streaming metrics, complexity, action plans)
  - `backend/app/sentry_propagator.py` (sentry-trace header codec)
  - `backend/app/otel_config.py`  (composite propagator chain)
  Times are modelled in integer milliseconds (the unit the code records after
  `int((t1 - t0) * 1000)`); Python floats are idealised as exact rationals.
-/
import Mathlib

namespace AIChat

/-! ## Streaming metrics capture (ai_service.py, generate_action_plan lines 216-275)

The streaming branch walks the chunk iterator keeping
`ttft`, `last_chunk_time`, `chunk_times` and `chunk_count`.  We model a run of
the loop by a fold over the list of inter-arrival delays (in ms): fragment `i`
arrives `delays[i]` ms after the previous fragment (after `request_start` for
the first one). -/

structure StreamState where
  /-- elapsed ms since `request_start` of the most recently processed event -/
  now : Nat
  /-- `ttft`: set on the first chunk, `None` before (`first_chunk_received`) -/
  ttft : Option Nat
  /-- `last_chunk_time`, as elapsed ms since `request_start` (initially 0) -/
  last : Nat
  /-- `chunk_times`: the recorded inter-chunk gaps, in arrival order -/
  gaps : List Nat
  /-- `chunk_count` -/
  count : Nat
  deriving Repr, DecidableEq

/-- One iteration of the `for chunk in response:` loop of
`generate_action_plan` (lines 251-265): the chunk arrives `d` ms after the
previous event.  On the first chunk `ttft` is recorded; on every later chunk
`time_since_last` is appended to `chunk_times`; `last_chunk_time` and
`chunk_count` are always updated. -/
def stream_step (s : StreamState) (d : Nat) : StreamState :=
  let t := s.now + d
  match s.ttft with
  | none => { now := t, ttft := some t, last := t, gaps := s.gaps, count := s.count + 1 }
  | some _ => { now := t, ttft := s.ttft, last := t, gaps := s.gaps ++ [t - s.last], count := s.count + 1 }

/-- The whole streaming loop, starting from the state right after
`request_start_time = time.time()` (lines 216-221): `ttft = None`,
`chunk_times = []`, `chunk_count = 0`, `last_chunk_time = request_start`. -/
def process_stream (delays : List Nat) : StreamState :=
  delays.foldl stream_step { now := 0, ttft := none, last := 0, gaps := [], count := 0 }

/-- `ttlt = int((last_chunk_time - request_start_time) * 1000)` (line 274). -/
def stream_ttlt (delays : List Nat) : Nat := (process_stream delays).last

/-- `time_between_chunks_avg = int(np.mean(chunk_times)) if chunk_times else 0`
(line 296).  `np.mean` is the exact rational mean and `int` truncates toward
zero, which on the non-negative gaps is floor — i.e. `Nat` division. -/
def time_between_chunks_avg (gaps : List Nat) : Nat :=
  if gaps = [] then 0 else gaps.sum / gaps.length

/-- `np.percentile(chunk_times, 95)` with the default linear interpolation:
with the data sorted ascending, the value at fractional rank
`(n - 1) * 95/100`. -/
def np_percentile95 (gaps : List Nat) : ℚ :=
  let sorted := gaps.insertionSort (· ≤ ·)
  let n := gaps.length
  let rank : ℚ := ((n : ℚ) - 1) * (95 / 100)
  let lo := rank.floor.toNat
  let a : ℚ := (sorted.getD lo 0 : Nat)
  let b : ℚ := (sorted.getD (lo + 1) (sorted.getD lo 0) : Nat)
  a + (rank - (lo : ℚ)) * (b - a)

/-- `time_between_chunks_p95 = int(np.percentile(chunk_times, 95)) if chunk_times else 0`
(line 297). -/
def time_between_chunks_p95 (gaps : List Nat) : Nat :=
  if gaps = [] then 0 else (np_percentile95 gaps).floor.toNat

/-- The exact rational mean of a list of gaps (`np.mean` before the `int(...)`
truncation); used to compare the recorded average against the specified one. -/
def ratMean (l : List Nat) : ℚ := (l.sum : ℚ) / (l.length : ℚ)

/-! ## Derived metrics (ai_service.py lines 294-295) -/

/-- `tokens_per_second = output_tokens / (generation_time / 1000) if generation_time > 0 else 0`. -/
def tokens_per_second (output_tokens : Nat) (generation_time : Int) : ℚ :=
  if generation_time > 0 then (output_tokens : ℚ) / ((generation_time : ℚ) / 1000) else 0

/-- `mean_time_per_token = generation_time / output_tokens if output_tokens > 0 else 0`. -/
def mean_time_per_token (output_tokens : Nat) (generation_time : Int) : ℚ :=
  if output_tokens > 0 then (generation_time : ℚ) / (output_tokens : ℚ) else 0

/-- `generation_time = ttlt - ttft if ttft and ttlt else ttlt` (line 278).
Python truthiness: a `ttft` of `None` *or `0`* falls back to `ttlt`. -/
def generation_time (ttft : Option Nat) (ttlt : Nat) : Int :=
  match ttft with
  | none => (ttlt : Int)
  | some t => if t ≠ 0 ∧ ttlt ≠ 0 then (ttlt : Int) - (t : Int) else (ttlt : Int)

/-! ## Sentry trace-header codec (sentry_propagator.py, `SentryPropagator.extract`)

Header values are modelled as lists of characters.  The parse is
`header.split("-")`, a segment-count check, and Python `int(seg, 16)` on the
first two segments; a `ValueError` leaves the incoming context untouched. -/

/-- Characters Python's `str.strip()` (as applied by `int(s, 16)`) removes;
ASCII whitespace is what can occur in an HTTP header value. -/
def isPySpace (c : Char) : Bool :=
  c = ' ' ∨ c = '\t' ∨ c = '\n' ∨ c = '\r' ∨ c = '\x0b' ∨ c = '\x0c'

def isHexDigitChar (c : Char) : Bool :=
  c.isDigit ∨ ('a' ≤ c ∧ c ≤ 'f') ∨ ('A' ≤ c ∧ c ≤ 'F')

def hexVal (c : Char) : Nat :=
  if c.isDigit then c.toNat - '0'.toNat
  else if 'a' ≤ c ∧ c ≤ 'f' then c.toNat - 'a'.toNat + 10
  else c.toNat - 'A'.toNat + 10

/-- Value of a run of hex digits (most significant first). -/
def hexDigitsVal (cs : List Char) : Nat :=
  cs.foldl (fun acc c => 16 * acc + hexVal c) 0

/-- Tail of a hex-digit run in Python's `int` literal grammar: hex digits with
single underscores allowed only between digits. -/
def hexTail : List Char → Bool
  | [] => true
  | c :: rest =>
    if c = '_' then
      match rest with
      | [] => false
      | c2 :: rest2 => isHexDigitChar c2 && hexTail rest2
    else isHexDigitChar c && hexTail rest

/-- A full hex-digit run: nonempty, starts with a digit, underscores only
between digits. -/
def hexRun (cs : List Char) : Bool :=
  match cs with
  | [] => false
  | c :: rest => isHexDigitChar c && hexTail rest

def pyTrim (cs : List Char) : List Char :=
  ((cs.dropWhile isPySpace).reverse.dropWhile isPySpace).reverse

/-- The optional leading sign of a Python integer literal: the sign factor
and the remaining characters. -/
def stripSign (cs : List Char) : Int × List Char :=
  match cs with
  | [] => (1, [])
  | c :: rest =>
    if c = '+' then (1, rest) else if c = '-' then (-1, rest) else (1, c :: rest)

/-- The optional `0x`/`0X` prefix accepted by `int(_, 16)`: whether a prefix
was present, and the remaining characters. -/
def stripHex0x (cs : List Char) : Bool × List Char :=
  match cs with
  | c0 :: c1 :: rest =>
    if c0 = '0' ∧ (c1 = 'x' ∨ c1 = 'X') then (true, rest) else (false, c0 :: c1 :: rest)
  | _ => (false, cs)

/-- After a `0x` prefix Python additionally allows one underscore before the
first digit (`int("0x_ff", 16)` parses). -/
def hexRunAfter0x (cs : List Char) : Bool :=
  match cs with
  | c :: rest => if c = '_' then hexRun rest else false
  | [] => false

/-- Python `int(s, 16)`: optional surrounding whitespace, optional sign,
optional `0x`/`0X` prefix, then underscore-grouped hex digits; `none` models
the `ValueError`. -/
def pyIntHex (s : List Char) : Option Int :=
  let sg := stripSign (pyTrim s)
  let pr := stripHex0x sg.2
  if hexRun pr.2 || (pr.1 && hexRunAfter0x pr.2) then
    some (sg.1 * (hexDigitsVal (pr.2.filter (fun c => c ≠ '_')) : Int))
  else none

/-- `header.split("-")` on a character list: every `-` separates segments and
empty segments are kept, exactly like Python `str.split` with an explicit
separator. -/
def splitOnDash : List Char → List (List Char)
  | [] => [[]]
  | c :: rest =>
    if c = '-' then [] :: splitOnDash rest
    else
      match splitOnDash rest with
      | g :: gs => (c :: g) :: gs
      | [] => [[c]]

/-- The remote span reference built by the propagators
(`opentelemetry.trace.SpanContext`): the ids are the parsed integers (the
OTel constructor performs no range or length validation), `trace_flags` is
the flags byte. -/
structure SpanCtx where
  trace_id : Int
  span_id : Int
  trace_flags : Nat
  is_remote : Bool
  deriving Repr, DecidableEq

/-- `SentryPropagator.extract` on one `sentry-trace` header value
(lines 46-87): split on `-`, require exactly 3 parts, parse the two ids with
`int(_, 16)`, set flags to 1 iff the third part is the literal `"1"`.  `none`
means the `except (ValueError, IndexError)` path (or the early length check):
the incoming context is returned unchanged. -/
def sentry_parse (header : List Char) : Option SpanCtx :=
  let parts := splitOnDash header
  if parts.length ≠ 3 then none
  else
    match parts with
    | [t, s, f] =>
      match pyIntHex t, pyIntHex s with
      | some tid, some sid =>
        some { trace_id := tid, span_id := sid,
               trace_flags := if f = ['1'] then 1 else 0, is_remote := true }
      | _, _ => none
    | _ => none

/-! ## Propagator chain (otel_config.py lines 51-57)

`CompositeHTTPPropagator([SentryPropagator(), TraceContextTextMapPropagator(),
W3CBaggagePropagator()])` threads the context through each propagator's
`extract` in list order.  The W3C pieces are third-party
(`opentelemetry-python`); they are embedded from that library's source. -/

/-- The execution context as far as the claims are concerned: the active
parent span reference (`trace.set_span_in_context`) and the accumulated
baggage entries. -/
structure Ctx where
  parent : Option SpanCtx
  baggage : List (List Char × List Char)
  deriving Repr, DecidableEq

/-- The carrier restricted to the three header fields the chain reads
(`None` = header absent from the request). -/
structure Carrier where
  sentry_trace : Option (List Char)
  traceparent : Option (List Char)
  baggage : Option (List Char)
  deriving Repr, DecidableEq

/-- `SentryPropagator.extract` over a carrier: missing or unparsable header
returns the context unchanged; success replaces the active span. -/
def sentry_extract (c : Carrier) (ctx : Ctx) : Ctx :=
  match c.sentry_trace with
  | none => ctx
  | some h =>
    match sentry_parse h with
    | none => ctx
    | some sc => { ctx with parent := some sc }

/-- Lower-case hex digit, as in the `traceparent` regex `[0-9a-f]`. -/
def isLowerHex (c : Char) : Bool := c.isDigit ∨ ('a' ≤ c ∧ c ≤ 'f')

/-- `TraceContextTextMapPropagator.extract`'s header parse, from
`opentelemetry/trace/propagation/tracecontext.py`: the regex
`^[ \t]*ver(2)-trace(32)-span(16)-flags(2)(-.*)?[ \t]*$` over lower-case hex,
then: all-zero trace or span id rejected, version `00` must have no extra
field, version `ff` rejected. -/
def traceparent_parse (h : List Char) : Option SpanCtx :=
  let cs := (((h.dropWhile fun c => c = ' ' ∨ c = '\t').reverse.dropWhile
      fun c => c = ' ' ∨ c = '\t').reverse)
  let ver := cs.take 2
  let r1 := cs.drop 2
  let tid := r1.drop 1 |>.take 32
  let r2 := r1.drop 33
  let sid := r2.drop 1 |>.take 16
  let r3 := r2.drop 17
  let flg := r3.drop 1 |>.take 2
  let rest := r3.drop 3
  let shapeOk : Bool :=
    ver.length = 2 && ver.all isLowerHex &&
    r1.take 1 = ['-'] && tid.length = 32 && tid.all isLowerHex &&
    r2.take 1 = ['-'] && sid.length = 16 && sid.all isLowerHex &&
    r3.take 1 = ['-'] && flg.length = 2 && flg.all isLowerHex &&
    (rest = [] ∨ rest.take 1 = ['-'])
  if shapeOk then
    if tid = List.replicate 32 '0' ∨ sid = List.replicate 16 '0' then none
    else if ver = ['0', '0'] ∧ rest ≠ [] then none
    else if ver = ['f', 'f'] then none
    else some { trace_id := (hexDigitsVal tid : Int), span_id := (hexDigitsVal sid : Int),
                trace_flags := hexDigitsVal flg, is_remote := true }
  else none

/-- `TraceContextTextMapPropagator.extract` over a carrier: a valid
`traceparent` header replaces the active span in the incoming context
unconditionally; otherwise the context passes through. -/
def traceparent_extract (c : Carrier) (ctx : Ctx) : Ctx :=
  match c.traceparent with
  | none => ctx
  | some h =>
    match traceparent_parse h with
    | none => ctx
    | some sc => { ctx with parent := some sc }

/-- Split a character list on a separator character, keeping empty segments. -/
def splitOnChar (sep : Char) : List Char → List (List Char)
  | [] => [[]]
  | c :: rest =>
    if c = sep then [] :: splitOnChar sep rest
    else
      match splitOnChar sep rest with
      | g :: gs => (c :: g) :: gs
      | [] => [[c]]

/-- `W3CBaggagePropagator.extract`: parse comma-separated `key=value` pairs
into the context's baggage; entries without a `=` are skipped; the active
span is never touched. -/
def baggage_extract (c : Carrier) (ctx : Ctx) : Ctx :=
  match c.baggage with
  | none => ctx
  | some h =>
    let entries := (splitOnChar ',' h).filterMap fun e =>
      match splitOnChar '=' e with
      | k :: v :: vs => some (k, List.intercalate ['='] (v :: vs))
      | _ => none
    { ctx with baggage := ctx.baggage ++ entries }

/-- The configured composite chain (otel_config.py lines 51-57): Sentry
first, then W3C TraceContext, then W3C Baggage, each receiving the previous
context. -/
def composite_extract (c : Carrier) (ctx : Ctx) : Ctx :=
  baggage_extract c (traceparent_extract c (sentry_extract c ctx))

/-- The empty incoming execution context (no parent, no baggage). -/
def emptyCtx : Ctx := { parent := none, baggage := [] }

/-! ## Complexity classification (ai_service.py, `_calculate_complexity`, lines 544-555) -/

structure Message where
  role : String
  content : String
  deriving Repr, DecidableEq

/-- `_calculate_complexity`: thresholds on the summed content length OR the
message count, in order `simple`, `medium`, `high`. -/
def calculate_complexity (messages : List Message) : String :=
  let total_length := (messages.map (fun m => m.content.length)).sum
  let message_count := messages.length
  if total_length < 500 ∨ message_count ≤ 2 then "simple"
  else if total_length < 2000 ∨ message_count ≤ 5 then "medium"
  else "high"

/-! ## Action-plan lifecycle (ai_service.py & models.py)

`ActionPlanModel` and the in-memory registry `self.action_plans`
(a Python dict, id → plan).  The outbound LLM call is passed in as an
`Except`, modelling the provider capability that either returns the full
text or raises; `raise` aborts the method, so each operation returns the
raised error (if any) together with the registry as it stands at the raise
point. -/

inductive PlanStatus where
  | draft
  | saved
  deriving Repr, DecidableEq

structure ActionPlanModel where
  id : String
  title : String
  content : String
  status : PlanStatus
  version : Nat
  deriving Repr, DecidableEq

/-- The in-memory registry `self.action_plans : Dict[str, ActionPlanModel]`. -/
def Registry := List (String × ActionPlanModel)
  deriving Repr, DecidableEq

/-- Python dict read `reg[k]` / `k in reg`. -/
def Registry.lookup (reg : Registry) (k : String) : Option ActionPlanModel :=
  List.lookup k reg

/-- Python dict write `reg[k] = v`: overwrite the existing binding in place,
or append a new one. -/
def Registry.set (reg : Registry) (k : String) (v : ActionPlanModel) : Registry :=
  match reg with
  | [] => [(k, v)]
  | (k', v') :: rest =>
    if k' = k then (k, v) :: rest else (k', v') :: Registry.set rest k v

/-- `_extract_title` (lines 519-525): text before the first `.`, ellipsised
past 50 characters. -/
def extract_title (template_content : String) : String :=
  let title := (template_content.splitOn ".").headD ""
  if title.length > 50 then (title.take 47) ++ "..." else title

/-- Outcome of a service method: either a `raise`d error message or a normal
return value, paired with the registry state at exit. -/
def ServiceResult (α : Type) := Except String α × Registry

/-- `generate_action_plan` restricted to its state effects (lines 146-360):
the provider call (`llm`) runs first; only when it returns content is a new
plan built with a fresh id, `status="draft"`, `version=1` and stored
(lines 328-337).  A provider failure re-raises with the registry untouched. -/
def generate_action_plan (reg : Registry) (template_content : String)
    (newId : String) (llm : Except String String) :
    ServiceResult ActionPlanModel :=
  match llm with
  | .error e => (.error e, reg)
  | .ok plan_content =>
    let action_plan : ActionPlanModel :=
      { id := newId, title := extract_title template_content,
        content := plan_content, status := .draft, version := 1 }
    (.ok action_plan, reg.set newId action_plan)

/-- `update_action_plan` (lines 362-457): unknown id raises
`ValueError(f"Action plan {id} not found")` before anything else; then the
provider call runs; on success the plan is rebuilt with the same id and
title, the new content, `status="draft"` and `version+1`, and stored. -/
def update_action_plan (reg : Registry) (action_plan_id : String)
    (llm : Except String String) : ServiceResult ActionPlanModel :=
  match reg.lookup action_plan_id with
  | none => (.error ("Action plan " ++ action_plan_id ++ " not found"), reg)
  | some current_plan =>
    match llm with
    | .error e => (.error e, reg)
    | .ok updated_content =>
      let updated_plan : ActionPlanModel :=
        { id := current_plan.id, title := current_plan.title,
          content := updated_content, status := .draft,
          version := current_plan.version + 1 }
      (.ok updated_plan, reg.set action_plan_id updated_plan)

/-- `commit_action_plan` (lines 459-479): unknown id raises; otherwise
`plan.status = "saved"` mutates the stored plan in place and returns it. -/
def commit_action_plan (reg : Registry) (action_plan_id : String) :
    ServiceResult ActionPlanModel :=
  match reg.lookup action_plan_id with
  | none => (.error ("Action plan " ++ action_plan_id ++ " not found"), reg)
  | some plan =>
    let plan' : ActionPlanModel := { plan with status := .saved }
    (.ok plan', reg.set action_plan_id plan')

/-! ## Error paths of the instrumented calls (ai_service.py)

When the provider call raises, the `except Exception as e:` block closes the
Langfuse generation with `level="ERROR"` / `status_message=str(e)` and
re-raises.  `generation` is `None` exactly when no Langfuse client is
configured.  In `generate_chat_response` (lines 139-144) the `end` call is
*not* guarded by `if generation:`; in `generate_action_plan`
(lines 354-360) it is. -/

/-- An exception surfacing from a service method. -/
inductive PyErr where
  /-- the provider failure, re-raised by `raise e` -/
  | exc : String → PyErr
  /-- Python `AttributeError` from calling a method on `None` -/
  | attributeError : String → PyErr
  deriving Repr, DecidableEq

/-- An ERROR annotation recorded on the telemetry generation:
`(level, status_message)`. -/
def ErrorNote := Option (String × String)
  deriving Repr, DecidableEq

/-- The `except` block of `generate_chat_response` (lines 139-144):
`generation.end(level="ERROR", status_message=str(e))` then `raise e`.
With `generation = None` the unguarded attribute access itself raises.
Returns (annotation recorded, exception leaving the method). -/
def chat_except_block (generation : Option Unit) (e : String) :
    ErrorNote × PyErr :=
  match generation with
  | none => (none, .attributeError "NoneType object has no attribute end")
  | some _ => (some ("ERROR", e), .exc e)

/-- The `except` block of `generate_action_plan` (lines 354-360): the same
annotation, but behind `if generation:`, then `raise e`. -/
def action_plan_except_block (generation : Option Unit) (e : String) :
    ErrorNote × PyErr :=
  match generation with
  | none => (none, .exc e)
  | some _ => (some ("ERROR", e), .exc e)

/-! ## Span attributes (ai_service.py)

The attribute names attached to each OpenTelemetry span, in program order.
`span.set_attribute` with the same key twice would overwrite, so "attached
exactly once" is `count = 1` in these lists. -/

/-- Attribute keys of the `ai.action_plan.generation` span on the success
path: the dict passed to `start_as_current_span` (lines 196-214) followed by
the unconditional `set_attribute` calls (lines 304-323). -/
def action_plan_span_keys : List String :=
  ["ai.provider", "ai.model", "ai.temperature", "ai.max_tokens",
   "ai.streaming_enabled", "ai.prompt_length", "ai.prompt_complexity",
   "ai.message_count", "flow.type",
   "ai.ttft", "ai.ttlt", "ai.queue_time", "ai.generation_time",
   "ai.tokens_per_second", "ai.mean_time_per_token",
   "ai.chunk_count", "ai.time_between_chunks_avg", "ai.time_between_chunks_p95",
   "ai.input_tokens", "ai.output_tokens", "ai.total_tokens",
   "ai.context_window_usage_pct", "ai.cache_hit"]

/-- The declared `ai.*` attribute names of the LLM-call span, as enumerated
by the spec (§6) — the refinement target `action_plan_span_keys` is compared
against. -/
def spec_declared_ai_attrs : List String :=
  ["ai.provider", "ai.model", "ai.temperature", "ai.max_tokens",
   "ai.streaming_enabled", "ai.prompt_length", "ai.prompt_complexity",
   "ai.message_count", "ai.ttft", "ai.ttlt", "ai.queue_time",
   "ai.generation_time", "ai.tokens_per_second", "ai.mean_time_per_token",
   "ai.chunk_count", "ai.time_between_chunks_avg", "ai.time_between_chunks_p95",
   "ai.input_tokens", "ai.output_tokens", "ai.total_tokens",
   "ai.context_window_usage_pct", "ai.cache_hit"]

/-- A scalar attribute value. -/
inductive AttrVal where
  | str : String → AttrVal
  | int : Int → AttrVal
  | rat : ℚ → AttrVal
  | bool : Bool → AttrVal
  deriving Repr, DecidableEq

/-- The defaulted timing attributes of the `ai.action_plan.generation` span
(lines 304-307, 323): `ttft or 0`, `ttlt or 0`, `queue_time` hard-coded `0`,
`generation_time or 0`, `cache_hit` hard-coded `False`.  (Python's `x or 0`
on an optional non-negative integer is `getD 0`: both `None` and `0` yield
`0`.) -/
def action_plan_defaulted_attrs (ttft ttlt : Option Nat) (gen_time : Int) :
    List (String × AttrVal) :=
  [("ai.ttft", .int ((ttft.getD 0 : Nat) : Int)),
   ("ai.ttlt", .int ((ttlt.getD 0 : Nat) : Int)),
   ("ai.queue_time", .int 0),
   ("ai.generation_time", .int (if gen_time ≠ 0 then gen_time else 0)),
   ("ai.cache_hit", .bool false)]

/-- Attribute keys of the `ai.chat.completions` span in
`generate_chat_response` on the success path: the four start attributes
(lines 77-82), then — only on the openai/groq branch and only when
`response.usage` is truthy — the three token attributes (lines 126-130). -/
def chat_span_keys (gemini : Bool) (usage_present : Bool) : List String :=
  ["ai.provider", "ai.model", "flow.type", "message.length"] ++
    (if ¬gemini ∧ usage_present
     then ["ai.tokens.prompt", "ai.tokens.completion", "ai.tokens.total"]
     else [])

/-- Every attribute name `generate_chat_response` can attach to its span
(the declared names for that span, including the token-count attributes). -/
def chat_declared_keys : List String := chat_span_keys false true

/-! ## Concrete sample data used to instantiate the theorems -/

/-- A 7-message conversation whose contents total 100 characters. -/
def c5_msgs : List Message :=
  ⟨"user", String.mk (List.replicate 40 'a')⟩ ::
    List.replicate 6 ⟨"assistant", String.mk (List.replicate 10 'b')⟩

/-- A sample stored plan and registry for concrete instantiations. -/
def samplePlan : ActionPlanModel :=
  { id := "p1", title := "t", content := "c", status := .draft, version := 3 }

def sampleReg : Registry := [("p1", samplePlan)]

def emptyReg : Registry := []

/-! ## Lemmas about the streaming loop -/

/-- Once the first chunk has been seen (`ttft = some _`, `now = last`), every
further delay adds itself both to the clock and, verbatim, to the gap list. -/
theorem foldl_stream_step_after_first (ds : List Nat) (t0 tft : Nat) (g : List Nat) (n : Nat) :
    ds.foldl stream_step { now := t0, ttft := some tft, last := t0, gaps := g, count := n } =
      { now := t0 + ds.sum, ttft := some tft, last := t0 + ds.sum,
        gaps := g ++ ds, count := n + ds.length } := by
  induction ds generalizing t0 g n with
  | nil => simp
  | cons d ds ih =>
    simp only [List.foldl_cons, stream_step]
    rw [ih]
    simp only [Nat.add_sub_cancel_left, StreamState.mk.injEq, List.sum_cons, List.length_cons,
      List.append_assoc, List.singleton_append, and_true, true_and]
    omega

/-- The streaming loop on a non-empty fragment sequence: the first delay
fixes `ttft`, the remaining delays are recorded verbatim as the gaps, the
clock ends at the total delay, and every fragment is counted. -/
theorem process_stream_cons (d : Nat) (ds : List Nat) :
    process_stream (d :: ds) =
      { now := d + ds.sum, ttft := some d, last := d + ds.sum,
        gaps := ds, count := 1 + ds.length } := by
  simp only [process_stream, List.foldl_cons, stream_step]
  simpa using foldl_stream_step_after_first ds d d [] 1

/-! ## Lemmas about the registry -/

theorem Registry.lookup_set (reg : Registry) (k : String) (v : ActionPlanModel) :
    (reg.set k v).lookup k = some v := by
  induction reg with
  | nil => simp [Registry.set, Registry.lookup, List.lookup]
  | cons kv rest ih =>
    obtain ⟨k', v'⟩ := kv
    by_cases h : k' = k
    · subst h
      simp [Registry.set, Registry.lookup, List.lookup]
    · simp only [Registry.set, if_neg h]
      simpa [Registry.lookup, List.lookup, beq_false_of_ne (Ne.symm h)] using ih

theorem Registry.set_set (reg : Registry) (k : String) (v w : ActionPlanModel) :
    (reg.set k v).set k w = reg.set k w := by
  induction reg with
  | nil => simp [Registry.set]
  | cons kv rest ih =>
    obtain ⟨k', v'⟩ := kv
    by_cases h : k' = k
    · subst h
      simp [Registry.set]
    · simp [Registry.set, if_neg h, ih]

/-! ## Lemmas about the header codecs -/

theorem ne_of_hex {c : Char} (h : isHexDigitChar c = true) :
    c ≠ '-' ∧ c ≠ '+' ∧ c ≠ '_' ∧ c ≠ 'x' ∧ c ≠ 'X' := by
  refine ⟨?_, ?_, ?_, ?_, ?_⟩ <;> (rintro rfl; exact absurd h (by decide))

theorem not_space_of_hex {c : Char} (h : isHexDigitChar c = true) : isPySpace c = false := by
  simp only [isPySpace, decide_eq_false_iff_not]
  rintro (rfl | rfl | rfl | rfl | rfl | rfl) <;> exact absurd h (by decide)

theorem dropWhile_eq_self_of_none {p : Char → Bool} {l : List Char}
    (h : ∀ c ∈ l, p c = false) : l.dropWhile p = l := by
  cases l with
  | nil => rfl
  | cons c rest => simp [List.dropWhile_cons, h c (by simp)]

theorem pyTrim_eq_self {t : List Char} (h : ∀ c ∈ t, isPySpace c = false) : pyTrim t = t := by
  unfold pyTrim
  rw [dropWhile_eq_self_of_none h,
    dropWhile_eq_self_of_none (fun c hc => h c (by simpa using hc)), List.reverse_reverse]

theorem hexTail_of_all_hex : ∀ {l : List Char}, (∀ c ∈ l, isHexDigitChar c = true) →
    hexTail l = true
  | [], _ => rfl
  | c :: rest, h => by
    have hc := h c (by simp)
    have hrest := hexTail_of_all_hex (fun d hd => h d (List.mem_cons_of_mem _ hd))
    unfold hexTail
    rw [if_neg (ne_of_hex hc).2.2.1]
    simp [hc, hrest]

/-- Python `int(t, 16)` on a nonempty run of plain hex digits succeeds with
their value. -/
theorem pyIntHex_all_hex {t : List Char} (hne : t ≠ [])
    (h : ∀ c ∈ t, isHexDigitChar c = true) : pyIntHex t = some (hexDigitsVal t : Int) := by
  obtain ⟨c, rest, rfl⟩ := List.exists_cons_of_ne_nil hne
  have hc : isHexDigitChar c = true := h c (by simp)
  have htrim : pyTrim (c :: rest) = c :: rest :=
    pyTrim_eq_self (fun d hd => not_space_of_hex (h d hd))
  have hsign : stripSign (c :: rest) = (1, c :: rest) := by
    simp [stripSign, (ne_of_hex hc).2.1, (ne_of_hex hc).1]
  have hpref : stripHex0x (c :: rest) = (false, c :: rest) := by
    cases rest with
    | nil => rfl
    | cons c2 rest2 =>
      have hc2 := h c2 (by simp)
      have hno : ¬(c = '0' ∧ (c2 = 'x' ∨ c2 = 'X')) := by
        rintro ⟨rfl, hx | hX⟩
        · exact absurd hx (ne_of_hex hc2).2.2.2.1
        · exact absurd hX (ne_of_hex hc2).2.2.2.2
      simp [stripHex0x, hno]
  have hrun : hexRun (c :: rest) = true := by
    simp [hexRun, hc, hexTail_of_all_hex (fun d hd => h d (List.mem_cons_of_mem _ hd))]
  have hfilter : List.filter (fun d => !decide (d = '_')) (c :: rest) = c :: rest :=
    List.filter_eq_self.mpr (fun d hd => by simpa using (ne_of_hex (h d hd)).2.2.1)
  simp [pyIntHex, htrim, hsign, hpref, hrun, hfilter]

theorem splitOnDash_ne_nil (l : List Char) : splitOnDash l ≠ [] := by
  cases l with
  | nil => simp [splitOnDash]
  | cons c rest =>
    by_cases h : c = '-'
    · simp [splitOnDash, h]
    · simp only [splitOnDash, if_neg h]
      rcases heq : splitOnDash rest with _ | ⟨g, gs⟩ <;> simp

theorem splitOnDash_no_dash {t : List Char} (h : ∀ c ∈ t, c ≠ '-') :
    splitOnDash t = [t] := by
  induction t with
  | nil => rfl
  | cons c rest ih =>
    simp only [splitOnDash, if_neg (h c (by simp))]
    rw [ih (fun d hd => h d (List.mem_cons_of_mem _ hd))]

theorem splitOnDash_append {t rest : List Char} (h : ∀ c ∈ t, c ≠ '-') :
    splitOnDash (t ++ '-' :: rest) = t :: splitOnDash rest := by
  induction t with
  | nil => simp [splitOnDash]
  | cons c t' ih =>
    simp only [List.cons_append, splitOnDash, if_neg (h c (by simp)), List.append_eq]
    rw [ih (fun d hd => h d (List.mem_cons_of_mem _ hd))]

/-! ## Claim C1 — streaming metrics -/

/-- C1, counterexample: the claim says the recorded average inter-fragment
gap equals the mean of the N−1 recorded gaps.  For delays 5,1,2 ms the gaps
are [1, 2] whose mean is 3/2, but the code records
`int(np.mean([1, 2])) = 1`. -/
theorem C1_counterexample :
    (process_stream [5, 1, 2]).gaps = [1, 2] ∧
    time_between_chunks_avg (process_stream [5, 1, 2]).gaps = 1 ∧
    ratMean (process_stream [5, 1, 2]).gaps = 3 / 2 ∧
    ((time_between_chunks_avg (process_stream [5, 1, 2]).gaps : ℚ) ≠
      ratMean (process_stream [5, 1, 2]).gaps) := by
  refine ⟨by decide, by decide, ?_, ?_⟩
  · norm_num [ratMean, process_stream, stream_step]
  · have h1 : time_between_chunks_avg (process_stream [5, 1, 2]).gaps = 1 := by decide
    rw [h1]
    norm_num [ratMean, process_stream, stream_step]

/-- C1 (amended): for a stream of fragments with inter-arrival delays
`d :: ds` (in ms), TTFT equals the first delay, TTLT the sum of all delays,
`chunk_count` the number of fragments, the recorded gap list is exactly the
later delays, the recorded average gap is the *floor* of the mean of those
N−1 gaps, and both the average and the p95 are 0 when N = 1. -/
theorem C1_streaming_metrics (d : Nat) (ds : List Nat) :
    (process_stream (d :: ds)).ttft = some d ∧
    stream_ttlt (d :: ds) = (d :: ds).sum ∧
    (process_stream (d :: ds)).count = (d :: ds).length ∧
    (process_stream (d :: ds)).gaps = ds ∧
    time_between_chunks_avg (process_stream (d :: ds)).gaps = ⌊ratMean ds⌋₊ ∧
    (ds = [] → time_between_chunks_avg (process_stream (d :: ds)).gaps = 0 ∧
      time_between_chunks_p95 (process_stream (d :: ds)).gaps = 0) := by
  refine ⟨?_, ?_, ?_, ?_, ?_, ?_⟩
  · rw [process_stream_cons]
  · simp [stream_ttlt, process_stream_cons]
  · simp [process_stream_cons, Nat.add_comm]
  · rw [process_stream_cons]
  · rw [process_stream_cons]
    rcases eq_or_ne ds [] with rfl | hne
    · simp [time_between_chunks_avg, ratMean]
    · rw [time_between_chunks_avg, if_neg hne, ratMean, Nat.floor_div_eq_div]
  · rintro rfl
    simp [process_stream_cons, time_between_chunks_avg, time_between_chunks_p95]

/-- C1 witness: a single-fragment stream (N = 1) records average and p95 gap
both 0. -/
theorem C1_streaming_metrics_witness :
    time_between_chunks_avg (process_stream [7]).gaps = 0 ∧
    time_between_chunks_p95 (process_stream [7]).gaps = 0 :=
  (C1_streaming_metrics 7 []).2.2.2.2.2 rfl

/-! ## Claim C2 — sentry-trace decoding -/

/-- C2, counterexample: the claim says extraction fails whenever the hex
segments are not exactly 32 and 16 characters long; but `"abc-12-1"` — a
3-character trace id and 2-character span id — extracts successfully, with
`trace_id = 0xabc` and `span_id = 0x12`. -/
theorem C2_counterexample :
    ¬("abc".toList.length = 32) ∧
    sentry_parse ("abc-12-1".toList) =
      some { trace_id := 2748, span_id := 18, trace_flags := 1, is_remote := true } := by
  exact ⟨by decide, by decide⟩

/-- C2 (amended): decoding succeeds for every header of the shape
`t-s-f` whose id segments are nonempty runs of hex digits of *any* length
(round-tripping their hex values, `is_remote = true`, sampled iff `f = "1"`);
it fails — contributing no parent — when the split does not give exactly 3
segments or an id segment does not parse as a Python hex integer.  Segment
lengths are never validated. -/
theorem C2_sentry_decode :
    (∀ t s f : List Char,
      (∀ c ∈ t, isHexDigitChar c = true) → t ≠ [] →
      (∀ c ∈ s, isHexDigitChar c = true) → s ≠ [] →
      (∀ c ∈ f, c ≠ '-') →
      sentry_parse (t ++ '-' :: (s ++ '-' :: f)) =
        some { trace_id := (hexDigitsVal t : Int), span_id := (hexDigitsVal s : Int),
               trace_flags := if f = ['1'] then 1 else 0, is_remote := true }) ∧
    (∀ h : List Char, (splitOnDash h).length ≠ 3 → sentry_parse h = none) ∧
    (∀ h t s f : List Char, splitOnDash h = [t, s, f] →
      (pyIntHex t = none ∨ pyIntHex s = none) → sentry_parse h = none) := by
  refine ⟨?_, ?_, ?_⟩
  · intro t s f htHex htne hsHex hsne hf
    have htd : ∀ c ∈ t, c ≠ '-' := fun c hc => (ne_of_hex (htHex c hc)).1
    have hsd : ∀ c ∈ s, c ≠ '-' := fun c hc => (ne_of_hex (hsHex c hc)).1
    have hsplit : splitOnDash (t ++ '-' :: (s ++ '-' :: f)) = [t, s, f] := by
      rw [splitOnDash_append htd, splitOnDash_append hsd, splitOnDash_no_dash hf]
    simp [sentry_parse, hsplit, pyIntHex_all_hex htne htHex, pyIntHex_all_hex hsne hsHex]
  · intro h hlen
    unfold sentry_parse
    simp [hlen]
  · intro h t s f hsplit hbad
    unfold sentry_parse
    rw [hsplit]
    rcases hbad with hbad | hbad
    · simp [hbad]
    · rcases hx : pyIntHex t with _ | v <;> simp [hx, hbad]

/-- C2 witness: a well-formed header of 32 `a`s, 16 `b`s and sampled flag 1
decodes to the corresponding hex values. -/
theorem C2_sentry_decode_witness :
    sentry_parse ((List.replicate 32 'a') ++ '-' :: ((List.replicate 16 'b') ++ '-' :: ['1'])) =
      some { trace_id := (hexDigitsVal (List.replicate 32 'a') : Int),
             span_id := (hexDigitsVal (List.replicate 16 'b') : Int),
             trace_flags := 1, is_remote := true } := by
  have h := C2_sentry_decode.1 (List.replicate 32 'a') (List.replicate 16 'b') ['1']
    (by decide) (by decide) (by decide) (by decide) (by decide)
  simpa using h

/-! ## Claim C3 — propagator chain precedence -/

/-- C3, counterexample: with both a valid `sentry-trace` (span `0xbb…b`) and
a valid `traceparent` (span `0xcc…c`) present, the claim says the proprietary
codec — first in the chain — wins.  In fact the W3C codec, which runs later,
replaces the already-set parent: the extracted parent's span id is the
`traceparent` one. -/
theorem C3_counterexample :
    sentry_parse ("aaaaaaaaaaaaaaaaaaaaaaaaaaaaaaaa-bbbbbbbbbbbbbbbb-1".toList) =
      some { trace_id := 0xaaaaaaaaaaaaaaaaaaaaaaaaaaaaaaaa, span_id := 0xbbbbbbbbbbbbbbbb,
             trace_flags := 1, is_remote := true } ∧
    (composite_extract
      { sentry_trace := some ("aaaaaaaaaaaaaaaaaaaaaaaaaaaaaaaa-bbbbbbbbbbbbbbbb-1".toList),
        traceparent := some ("00-aaaaaaaaaaaaaaaaaaaaaaaaaaaaaaaa-cccccccccccccccc-01".toList),
        baggage := none } emptyCtx).parent =
      some { trace_id := 0xaaaaaaaaaaaaaaaaaaaaaaaaaaaaaaaa, span_id := 0xcccccccccccccccc,
             trace_flags := 1, is_remote := true } ∧
    (0xcccccccccccccccc : Int) ≠ 0xbbbbbbbbbbbbbbbb := by
  exact ⟨by decide, by decide, by decide⟩

/-- C3 (amended): in the configured chain the *last* codec to produce a
parent wins: a valid `traceparent` header determines the parent, overriding
any parent set from `sentry-trace`; when `traceparent` is absent or invalid
the parent falls back to the one decoded from `sentry-trace`; when neither
yields a parent the incoming context's parent is left as it was.  The
baggage propagator never touches the parent. -/
theorem C3_chain_precedence (c : Carrier) (ctx : Ctx) :
    (composite_extract c ctx).parent =
      match c.traceparent.bind traceparent_parse, c.sentry_trace.bind sentry_parse with
      | some sc, _ => some sc
      | none, some sc => some sc
      | none, none => ctx.parent := by
  obtain ⟨st, tp, bg⟩ := c
  cases st with
  | none =>
    cases tp with
    | none =>
      cases bg <;>
        simp [composite_extract, sentry_extract, traceparent_extract, baggage_extract]
    | some h2 =>
      cases htp : traceparent_parse h2 <;> cases bg <;>
        simp [composite_extract, sentry_extract, traceparent_extract, baggage_extract, htp]
  | some h =>
    cases hsp : sentry_parse h with
    | none =>
      cases tp with
      | none =>
        cases bg <;>
          simp [composite_extract, sentry_extract, traceparent_extract, baggage_extract, hsp]
      | some h2 =>
        cases htp : traceparent_parse h2 <;> cases bg <;>
          simp [composite_extract, sentry_extract, traceparent_extract, baggage_extract, hsp, htp]
    | some sc =>
      cases tp with
      | none =>
        cases bg <;>
          simp [composite_extract, sentry_extract, traceparent_extract, baggage_extract, hsp]
      | some h2 =>
        cases htp : traceparent_parse h2 <;> cases bg <;>
          simp [composite_extract, sentry_extract, traceparent_extract, baggage_extract, hsp, htp]

/-! ## Claim C4 — derived-metric guards -/

/-- C4, counterexample: the claim says both derived metrics are 0 whenever
`generation_time ≤ 0`; but for `output_tokens = 7`, `generation_time = -1`
the code computes `mean_time_per_token = -1/7`, which is negative, not 0
(only the `output_tokens > 0` guard applies to this metric). -/
theorem C4_counterexample :
    ((-1 : Int) ≤ 0) ∧
    mean_time_per_token 7 (-1) = -1 / 7 ∧
    ¬(mean_time_per_token 7 (-1) = 0) := by
  refine ⟨by norm_num, ?_, ?_⟩ <;> norm_num [mean_time_per_token]

/-- C4 (amended): when `output_tokens = 0` or `generation_time = 0` both
derived metrics are 0; `tokens_per_second` is 0 for every
`generation_time ≤ 0` and `mean_time_per_token` is 0 for every
`output_tokens = 0`; and for non-negative `generation_time` (the only values
the program produces, since TTLT ≥ TTFT) neither metric is negative.  The
divisions are guarded, so no division by zero is evaluated. -/
theorem C4_derived_metric_guards (tok : Nat) (gt : Int) :
    ((tok = 0 ∨ gt = 0) →
      tokens_per_second tok gt = 0 ∧ mean_time_per_token tok gt = 0) ∧
    (gt ≤ 0 → tokens_per_second tok gt = 0) ∧
    (tok = 0 → mean_time_per_token tok gt = 0) ∧
    (0 ≤ gt → 0 ≤ tokens_per_second tok gt ∧ 0 ≤ mean_time_per_token tok gt) := by
  refine ⟨?_, ?_, ?_, ?_⟩
  · rintro (rfl | rfl)
    · constructor
      · unfold tokens_per_second
        split <;> simp
      · simp [mean_time_per_token]
    · constructor
      · simp [tokens_per_second]
      · unfold mean_time_per_token
        split <;> simp
  · intro hle
    unfold tokens_per_second
    rw [if_neg (by omega)]
  · intro h
    simp [mean_time_per_token, h]
  · intro hge
    constructor
    · unfold tokens_per_second
      split
      · refine div_nonneg (by positivity) (div_nonneg ?_ (by norm_num))
        exact_mod_cast hge
      · exact le_refl 0
    · unfold mean_time_per_token
      split
      · refine div_nonneg ?_ (by positivity)
        exact_mod_cast hge
      · exact le_refl 0

/-- C4 witness: at `output_tokens = 5`, `generation_time = 0` both metrics
are 0. -/
theorem C4_derived_metric_guards_witness :
    tokens_per_second 5 0 = 0 ∧ mean_time_per_token 5 0 = 0 :=
  (C4_derived_metric_guards 5 0).1 (Or.inr rfl)

/-! ## Claim C5 — complexity classification -/

/-- C5, counterexample: the claim says combined length 100 with 7 messages
classifies `medium`; but `total_length < 500` already fires the first branch,
so the code returns `simple` regardless of the message count. -/
theorem C5_counterexample :
    (c5_msgs.map fun m => m.content.length).sum = 100 ∧
    c5_msgs.length = 7 ∧
    calculate_complexity c5_msgs = "simple" ∧
    calculate_complexity c5_msgs ≠ "medium" := by
  exact ⟨by decide, by decide, by decide, by decide⟩

/-- C5 (amended): combined length 100 with 1 message classifies `simple`;
1000 with 4 messages `medium`; 3000 with 6 messages `high`; and 100 with 7
messages classifies `simple` (the length threshold is OR-combined, so the
short combined length wins no matter how many messages there are). -/
theorem C5_complexity_classification (msgs : List Message) :
    ((msgs.map fun m => m.content.length).sum = 100 → msgs.length = 1 →
      calculate_complexity msgs = "simple") ∧
    ((msgs.map fun m => m.content.length).sum = 1000 → msgs.length = 4 →
      calculate_complexity msgs = "medium") ∧
    ((msgs.map fun m => m.content.length).sum = 3000 → msgs.length = 6 →
      calculate_complexity msgs = "high") ∧
    ((msgs.map fun m => m.content.length).sum = 100 → msgs.length = 7 →
      calculate_complexity msgs = "simple") := by
  refine ⟨?_, ?_, ?_, ?_⟩ <;> intro hsum hlen <;> simp [calculate_complexity, hsum, hlen]

/-- C5 witness: the 7-message, 100-character conversation classifies
`simple`. -/
theorem C5_complexity_classification_witness :
    calculate_complexity c5_msgs = "simple" :=
  (C5_complexity_classification c5_msgs).2.2.2 (by decide) (by decide)

/-! ## Claim C6 — span-attribute presence -/

/-- C6, counterexample: `ai.tokens.prompt` is a declared attribute of the
chat-completion span (it is attached when usage is available), yet on a
successful completion with no usage payload it is omitted entirely (count 0,
not attached once with a neutral default). -/
theorem C6_counterexample :
    "ai.tokens.prompt" ∈ chat_declared_keys ∧
    (chat_span_keys false false).count "ai.tokens.prompt" = 0 := by
  exact ⟨by decide, by decide⟩

/-- C6 (amended): on the `ai.action_plan.generation` span every declared
attribute name is attached exactly once, with neutral defaults (`ttft or 0`,
`queue_time = 0`, `cache_hit = False`) when the value is unavailable; on the
`ai.chat.completions` span, however, the three token-count attributes are
attached (once) only when usage is present and are omitted otherwise. -/
theorem C6_span_attribute_presence (ttft ttlt : Option Nat) (gt : Int) :
    (∀ a ∈ spec_declared_ai_attrs, action_plan_span_keys.count a = 1) ∧
    action_plan_span_keys.Nodup ∧
    (ttft = none → ("ai.ttft", AttrVal.int 0) ∈ action_plan_defaulted_attrs ttft ttlt gt) ∧
    ("ai.queue_time", AttrVal.int 0) ∈ action_plan_defaulted_attrs ttft ttlt gt ∧
    ("ai.cache_hit", AttrVal.bool false) ∈ action_plan_defaulted_attrs ttft ttlt gt ∧
    (∀ u : Bool, (chat_span_keys false u).count "ai.tokens.prompt" = if u then 1 else 0) := by
  refine ⟨by decide, by decide, ?_, ?_, ?_, ?_⟩
  · rintro rfl
    simp [action_plan_defaulted_attrs]
  · simp [action_plan_defaulted_attrs]
  · simp [action_plan_defaulted_attrs]
  · intro u
    cases u <;> decide

/-- C6 witness: with `ttft` unavailable the span still carries `ai.ttft`,
defaulted to 0, and the key appears exactly once in the attribute list. -/
theorem C6_span_attribute_presence_witness :
    ("ai.ttft", AttrVal.int 0) ∈ action_plan_defaulted_attrs none (some 5) 3 ∧
    action_plan_span_keys.count "ai.ttft" = 1 :=
  ⟨(C6_span_attribute_presence none (some 5) 3).2.2.1 rfl,
   (C6_span_attribute_presence none (some 5) 3).1 "ai.ttft" (by decide)⟩

/-! ## Claims C7-C10 — action-plan lifecycle -/

/-- Evaluating `commit_action_plan` when the id is present. -/
theorem commit_of_lookup {reg : Registry} {planId : String} {cur : ActionPlanModel}
    (h : reg.lookup planId = some cur) :
    commit_action_plan reg planId =
      (.ok { cur with status := .saved }, reg.set planId { cur with status := .saved }) := by
  unfold commit_action_plan
  rw [h]

/-- C7: generating stores a plan with version 1 and status draft; updating an
existing plan stores a plan with the same id, the previous version plus 1 and
status draft; committing stores the plan with status saved and the version
unchanged. -/
theorem C7_action_plan_lifecycle (reg : Registry) (tc newId planId g u : String) :
    (∃ plan, (generate_action_plan reg tc newId (.ok g)).1 = .ok plan ∧
      plan.id = newId ∧ plan.version = 1 ∧ plan.status = .draft ∧
      (generate_action_plan reg tc newId (.ok g)).2.lookup newId = some plan) ∧
    (∀ cur, reg.lookup planId = some cur →
      ∃ plan, (update_action_plan reg planId (.ok u)).1 = .ok plan ∧
        plan.id = cur.id ∧ plan.version = cur.version + 1 ∧ plan.status = .draft ∧
        (update_action_plan reg planId (.ok u)).2.lookup planId = some plan) ∧
    (∀ cur, reg.lookup planId = some cur →
      ∃ plan, (commit_action_plan reg planId).1 = .ok plan ∧
        plan.id = cur.id ∧ plan.version = cur.version ∧ plan.status = .saved ∧
        (commit_action_plan reg planId).2.lookup planId = some plan) := by
  refine ⟨?_, ?_, ?_⟩
  · exact ⟨_, rfl, rfl, rfl, rfl, Registry.lookup_set reg newId _⟩
  · intro cur hcur
    unfold update_action_plan
    rw [hcur]
    exact ⟨_, rfl, rfl, rfl, rfl, Registry.lookup_set reg planId _⟩
  · intro cur hcur
    unfold commit_action_plan
    rw [hcur]
    exact ⟨_, rfl, rfl, rfl, rfl, Registry.lookup_set reg planId _⟩

/-- C7 witness: on a registry holding plan `p1` at version 3, update stores
version 4 draft and commit stores version 3 saved. -/
theorem C7_action_plan_lifecycle_witness :
    (∃ plan, (update_action_plan sampleReg "p1" (.ok "new")).1 = .ok plan ∧
      plan.id = samplePlan.id ∧ plan.version = samplePlan.version + 1 ∧
      plan.status = .draft ∧
      (update_action_plan sampleReg "p1" (.ok "new")).2.lookup "p1" = some plan) ∧
    (∃ plan, (commit_action_plan sampleReg "p1").1 = .ok plan ∧
      plan.id = samplePlan.id ∧ plan.version = samplePlan.version ∧
      plan.status = .saved ∧
      (commit_action_plan sampleReg "p1").2.lookup "p1" = some plan) :=
  ⟨(C7_action_plan_lifecycle sampleReg "tc" "n" "p1" "g" "new").2.1 samplePlan (by decide),
   (C7_action_plan_lifecycle sampleReg "tc" "n" "p1" "g" "new").2.2 samplePlan (by decide)⟩

/-- C8: update or commit on an id not in the registry fails with the
not-found error and leaves the registry unchanged; and a provider failure in
generation or update leaves the registry untouched (it is only written after
the provider call succeeds). -/
theorem C8_error_state_isolation (reg : Registry) (planId tc newId e : String) :
    (∀ llm : Except String String, reg.lookup planId = none →
      (update_action_plan reg planId llm).1 =
        .error ("Action plan " ++ planId ++ " not found") ∧
      (update_action_plan reg planId llm).2 = reg) ∧
    (reg.lookup planId = none →
      (commit_action_plan reg planId).1 =
        .error ("Action plan " ++ planId ++ " not found") ∧
      (commit_action_plan reg planId).2 = reg) ∧
    (generate_action_plan reg tc newId (.error e) = (.error e, reg)) ∧
    ((update_action_plan reg planId (.error e)).2 = reg) := by
  refine ⟨?_, ?_, rfl, ?_⟩
  · intro llm h
    unfold update_action_plan
    rw [h]
    exact ⟨rfl, rfl⟩
  · intro h
    unfold commit_action_plan
    rw [h]
    exact ⟨rfl, rfl⟩
  · unfold update_action_plan
    cases h : reg.lookup planId <;> simp [h]

/-- C8 witness: on the empty registry, update of the unknown id `x` fails
with the not-found message and the registry stays empty. -/
theorem C8_error_state_isolation_witness :
    (update_action_plan emptyReg "x" (.ok "c")).1 =
      .error ("Action plan " ++ "x" ++ " not found") ∧
    (update_action_plan emptyReg "x" (.ok "c")).2 = emptyReg :=
  (C8_error_state_isolation emptyReg "x" "t" "n" "e").1 (.ok "c") rfl

/-- C9: in `generate_chat_response`, with no Langfuse client configured
(`generation = None`) a provider failure is *not* re-raised: the unguarded
`generation.end(...)` raises `AttributeError`, replacing the original error
and recording no annotation.  With a generation present the annotation
`("ERROR", str(e))` is recorded and the same error is re-raised, as it
always is in `generate_action_plan`, whose handler is guarded. -/
theorem C9_error_reraise :
    chat_except_block none "provider timeout" =
      (none, .attributeError "NoneType object has no attribute end") ∧
    (chat_except_block none "provider timeout").2 ≠ .exc "provider timeout" ∧
    (∀ e : String, chat_except_block (some ()) e = (some ("ERROR", e), .exc e)) ∧
    (∀ gen : Option Unit, ∀ e : String, (action_plan_except_block gen e).2 = .exc e) := by
  refine ⟨rfl, by decide, fun e => rfl, fun gen e => by cases gen <;> rfl⟩

/-- C10: committing twice equals committing once — the stored plan keeps its
id, title, content and version, and its status is saved after either
commit. -/
theorem C10_commit_idempotent (reg : Registry) (planId : String) (cur : ActionPlanModel)
    (h : reg.lookup planId = some cur) :
    commit_action_plan ((commit_action_plan reg planId).2) planId =
      commit_action_plan reg planId ∧
    (∃ p, (commit_action_plan reg planId).1 = .ok p ∧ p.id = cur.id ∧
      p.title = cur.title ∧ p.content = cur.content ∧ p.version = cur.version ∧
      p.status = .saved) := by
  constructor
  · rw [commit_of_lookup h]
    dsimp only
    rw [commit_of_lookup (Registry.lookup_set reg planId _)]
    simp [Registry.set_set]
  · rw [commit_of_lookup h]
    exact ⟨_, rfl, rfl, rfl, rfl, rfl, rfl⟩

/-- C10 witness: double commit of `p1` on the sample registry equals a
single commit. -/
theorem C10_commit_idempotent_witness :
    commit_action_plan ((commit_action_plan sampleReg "p1").2) "p1" =
      commit_action_plan sampleReg "p1" :=
  (C10_commit_idempotent sampleReg "p1" samplePlan (by decide)).1

end AIChat
